import Mathlib

/-!
# Verification of the revit-mcp batch handlers

Shallow embedding of the C# reference handlers in
`docs/csharp-handlers/CreateDimensionsExtensions.cs`
(`CreateDimensionsExtensions.HandleCreateDimensions`,
`OperateElementExtensions.HandleSetParameter`, `OperateElementExtensions.HandleRename`)
and, modelled from the spec, the Command Channel of `src/connection/`
(whose source is not among the provided files).

Conventions of the embedding:
* C# `double` is modelled as `ℚ` (exact arithmetic; the unit-conversion
  constants 304.8 and `Math.PI`-as-a-double are exactly representable).
* Calls into the Revit API whose outcome depends on the host document
  (geometry helpers, `param.Set`, the settability of `Element.Name`) are
  oracles stored in the modelled element/descriptor, so the control flow
  of the handler is embedded exactly while the API stays a black box.
* The Revit `Transaction` always reaches `tx.Commit()` in these handlers
  (every per-item failure is caught, or recorded without throwing), so the
  committed document state is the state after the loop; the embedding
  threads that state explicitly.
* Error-message strings from the source are kept verbatim except that
  single-quote characters around interpolated names are elided.
-/

namespace RevitMcp

/-! ## HandleCreateDimensions (CreateDimensionsExtensions.cs, lines 36-139) -/

/-- The five `dimensionType` strings the dispatch `switch` (lines 63-87)
recognises.  Any other string falls through the switch with
`createdDim == null`. -/
def recognizedDimTypes : List String :=
  ["Linear", "Angular", "Radial", "Diameter", "ArcLength"]

/-- One element of the `results` list built by `HandleCreateDimensions`:
either the anonymous success object of lines 110-116 or the failure object
of lines 121-126. -/
inductive DimOutcome where
  | ok (dimensionId : Nat) (dimensionType : String) (textOverride : Option String)
  | fail (error : String) (dimensionType : String)
  deriving Repr, DecidableEq

/-- The `success` field of a result object. -/
def DimOutcome.success : DimOutcome → Bool
  | .ok _ _ _ => true
  | .fail _ _ => false

/-- One entry of the `dimensions` JSON array, together with the oracle for
the Revit-API calls the item performs:

* `dimensionType` — `dimObj["dimensionType"]`; `none` models an absent
  field (defaulted to `"Linear"` on line 52).
* `viewOk` — whether resolving `viewId` (lines 53-56) yields a non-null
  `View` (otherwise line 59 throws `"Invalid view"`).
* `attempt` — what the dispatched creation helper
  (`CreateLinearDimension`/`CreateChainDimension`/`CreateAngularDimension`/
  `CreateRadialDimension`) does: the `ElementId` of the created `Dimension`,
  or the message of the exception it throws.  The choice between the chain
  and plain linear helper (lines 67-75) is internal to this oracle.
* `textOverride` — `dimObj["textOverride"]`; `none` models an absent field.
* `overrideResult` — whether applying `ValueOverride` to the created
  dimension or its segments (lines 96-107) succeeds, or the message of the
  exception it throws. -/
structure DimSpec where
  dimensionType : Option String
  viewOk : Bool
  attempt : Except String Nat
  textOverride : Option String
  overrideResult : Except String Unit
  deriving Repr

/-- The body of the `foreach` loop of lines 48-128 for one `dimObj`,
`try`/`catch` included: returns the list of dimension element ids this item
leaves in the document and the result object it appends to `results`
(`none` when nothing is appended, which happens exactly when `createdDim`
stays `null`, i.e. the `dimensionType` matches no `case`). -/
def execDimItem (d : DimSpec) : List Nat × Option DimOutcome :=
  let dimType := d.dimensionType.getD "Linear"
  if d.viewOk = false then
    -- line 59 throws, caught on line 119
    ([], some (.fail "Invalid view" dimType))
  else if recognizedDimTypes.contains dimType then
    match d.attempt with
    | .error msg => ([], some (.fail msg dimType))
    | .ok dimId =>
      -- the dimension now exists in the document (created on lines 70-85);
      -- lines 90-108 apply the text override when present and non-empty
      match d.textOverride with
      | none => ([dimId], some (.ok dimId dimType d.textOverride))
      | some t =>
        if t = "" then ([dimId], some (.ok dimId dimType d.textOverride))
        else
          match d.overrideResult with
          | .ok _ => ([dimId], some (.ok dimId dimType d.textOverride))
          | .error msg =>
            -- the override throws: caught on line 119, but the created
            -- dimension is not deleted and survives the commit
            ([dimId], some (.fail msg dimType))
  else
    -- unrecognised dimensionType: the switch has no default, createdDim
    -- stays null, the `if (createdDim != null)` guard on line 90 skips the
    -- success object and no exception is thrown: nothing is recorded
    ([], none)

/-- The ids the item adds to the document. -/
def itemCreated (d : DimSpec) : List Nat := (execDimItem d).1

/-- The result object the item appends, if any. -/
def itemOutcome (d : DimSpec) : Option DimOutcome := (execDimItem d).2

/-- The anonymous reply object of lines 133-138. -/
structure DimEnvelope where
  success : Bool
  message : String
  results : List DimOutcome
  deriving Repr, DecidableEq

/-- The body of the `foreach` loop of lines 48-128 as a fold step over the
pair (document state, `results` so far). -/
def dimStep (acc : List Nat × List DimOutcome) (d : DimSpec) :
    List Nat × List DimOutcome :=
  (acc.1 ++ (execDimItem d).1, acc.2 ++ (execDimItem d).2.toList)

/-- `HandleCreateDimensions` (lines 36-139).  The document is modelled as
the list of dimension element ids it contains; the handler returns the
committed document and the reply object, or `Except.error` with the message
of the `ArgumentException` thrown on line 40.  The transaction opened on
line 44 always reaches `tx.Commit()` on line 130 (every item is wrapped in
`try`/`catch`), so the returned document is the state after the loop. -/
def handleCreateDimensions (doc : List Nat) (dims : List DimSpec) :
    Except String (List Nat × DimEnvelope) :=
  if dims.isEmpty then
    .error "No dimensions provided"
  else
    let out := dims.foldl dimStep (doc, [])
    let nOk := (out.2.filter DimOutcome.success).length
    .ok (out.1, { success := true
                  message := s!"Created {nOk} dimension(s)"
                  results := out.2 })

/-! ### Fold decomposition lemmas -/

theorem dimFold_spec (dims : List DimSpec) :
    ∀ doc acc, dims.foldl dimStep (doc, acc) =
      (doc ++ dims.flatMap itemCreated, acc ++ dims.filterMap itemOutcome) := by
  induction dims with
  | nil => intro doc acc; simp
  | cons d dims ih =>
    intro doc acc
    simp only [List.foldl_cons, dimStep, ih, List.flatMap_cons, List.filterMap_cons,
      Prod.mk.injEq]
    refine ⟨by simp [itemCreated, List.append_assoc], ?_⟩
    cases h : (execDimItem d).2 <;>
      simp [itemOutcome, h, List.append_assoc]

theorem handleCreateDimensions_eq (doc : List Nat) (dims : List DimSpec)
    (hne : dims ≠ []) :
    ∃ env, handleCreateDimensions doc dims =
        .ok (doc ++ dims.flatMap itemCreated, env) ∧
      env.success = true ∧ env.results = dims.filterMap itemOutcome := by
  unfold handleCreateDimensions
  rw [if_neg (by simpa using hne), dimFold_spec]
  exact ⟨_, rfl, rfl, by simp⟩

/-! ## Unit/Value codec and HandleSetParameter
(OperateElementExtensions.cs, lines 438-692) -/

/-- `private const double MmToFeet = 1.0 / 304.8;` (line 440).  The C#
`double` is modelled as `ℚ`, where 1/304.8 is exact. -/
def MmToFeet : ℚ := 1 / 304.8

/-- The value of the C# `Math.PI` constant: the IEEE-754 double closest to
π, which is exactly 884279719003555 / 2^48. -/
def mathPi : ℚ := 884279719003555 / 281474976710656

/-- The `SpecTypeId` comparisons of lines 657-665: the semantic kind of a
`Double`-storage parameter.  `other` stands for any `SpecTypeId` that is
none of `Length`, `Angle`, `Area`, `Volume`. -/
inductive SpecKind where
  | length | angle | area | volume | other
  deriving Repr, DecidableEq

/-- `StorageType` of a Revit parameter (the `switch` of line 640). -/
inductive StorageType where
  | string | integer | double | elementId
  deriving Repr, DecidableEq

/-- The caller-supplied `parameterValue` JSON token. -/
inductive JValue where
  | str (s : String)
  | num (v : ℚ)
  | bool (b : Bool)
  deriving Repr, DecidableEq

/-- `paramValueToken.ToString()` (display forms; only the fact that it is
applied matters to the claims, not the exact rendering). -/
def JValue.toDisplay : JValue → String
  | .str s => s
  | .num v => toString v
  | .bool b => toString b

/-- `paramValueToken.Value<double>()` for the token shapes the embedding
covers (Json.NET coerces booleans to 0/1; numeric strings are out of scope
and modelled as 0). -/
def JValue.asDouble : JValue → ℚ
  | .str _ => 0
  | .num v => v
  | .bool b => if b then 1 else 0

/-- `paramValueToken.Value<int>()` for the covered token shapes (the
`Double → Int` truncation of Json.NET for non-integral numbers is modelled
by `Rat.floor`-free truncation `Rat.num/Rat.den` is not needed: the claims
only use it on integral tokens). -/
def JValue.asInt : JValue → Int
  | .str _ => 0
  | .num v => v.num / (v.den : Int)
  | .bool b => if b then 1 else 0

/-- The `StorageType.Double` branch of lines 651-666: the unit conversion
applied to the caller value before `param.Set`.  Mirrors the source
verbatim: the conversion is only applied when the parameter definition is
an `InternalDefinition`; `SpecTypeId.Length` multiplies by `MmToFeet`,
`SpecTypeId.Angle` by π/180, `SpecTypeId.Area` by `MmToFeet * MmToFeet`,
`SpecTypeId.Volume` by the cube, and any other data type leaves the value
untouched. -/
def convertDoubleValue (isInternalDefinition : Bool) (kind : SpecKind) (v : ℚ) : ℚ :=
  if isInternalDefinition then
    match kind with
    | .length => v * MmToFeet
    | .angle => v * mathPi / 180
    | .area => v * (MmToFeet * MmToFeet)
    | .volume => v * (MmToFeet * MmToFeet * MmToFeet)
    | .other => v
  else v

/-- One Revit parameter as `element.LookupParameter` returns it:
its mutable facets read by the handler, plus the oracle `setOk` for the
boolean result of `param.Set(...)`. -/
structure PParam where
  isReadOnly : Bool
  storage : StorageType
  isInternalDefinition : Bool
  dataType : SpecKind
  setOk : Bool
  deriving Repr, DecidableEq

/-- One host element for the SetParameter handler: its parameters keyed by
name (`LookupParameter`). -/
structure PElem where
  params : List (String × PParam)
  deriving Repr, DecidableEq

/-- `element.LookupParameter(paramName)`. -/
def PElem.lookupParameter (e : PElem) (name : String) : Option PParam :=
  (e.params.find? (fun p => p.1 == name)).map Prod.snd

/-- `doc.GetElement(id)` for the SetParameter document model. -/
def lookupElem (doc : List (Nat × PElem)) (id : Nat) : Option PElem :=
  (doc.find? (fun p => p.1 == id)).map Prod.snd

/-- The value actually handed to `param.Set(...)` by the `switch` of
lines 640-672. -/
inductive HostValue where
  | str (s : String)
  | int (i : Int)
  | double (v : ℚ)
  | elemId (i : Int)
  | none
  deriving Repr, DecidableEq

/-- One element of the `results` list of `HandleSetParameter`
(the anonymous objects of lines 622, 629, 635 and 674-680). -/
structure SPResult where
  elementId : Nat
  success : Bool
  error : Option String := Option.none
  parameterName : Option String := Option.none
  newValue : Option String := Option.none
  deriving Repr, DecidableEq

/-- The loop body of lines 617-681 for one `ElementId`: the result object
appended to `results`, and the value written to the host parameter when the
code reaches `param.Set` (`HostValue.none` when it does not).  The error
messages of lines 629 and 635 interpolate the parameter name; the single
quotes around it in the source are elided. -/
def setParameterOne (doc : List (Nat × PElem)) (paramName : String)
    (value : JValue) (id : Nat) : SPResult × HostValue :=
  match lookupElem doc id with
  | Option.none =>
    ({ elementId := id, success := false, error := some "Element not found" },
     .none)
  | some e =>
    match e.lookupParameter paramName with
    | Option.none =>
      ({ elementId := id, success := false,
         error := some s!"Parameter {paramName} not found" }, .none)
    | some p =>
      if p.isReadOnly then
        ({ elementId := id, success := false,
           error := some s!"Parameter {paramName} is read-only" }, .none)
      else
        let written : HostValue :=
          match p.storage with
          | .string => .str value.toDisplay
          | .integer =>
            match value with
            | .bool b => .int (if b then 1 else 0)
            | _ => .int value.asInt
          | .double =>
            .double (convertDoubleValue p.isInternalDefinition p.dataType value.asDouble)
          | .elementId => .elemId value.asInt
        ({ elementId := id, success := p.setOk, parameterName := some paramName,
           newValue := some value.toDisplay }, written)

/-- The reply object of lines 686-691. -/
structure SPEnvelope where
  success : Bool
  message : String
  results : List SPResult
  deriving Repr, DecidableEq

/-- `HandleSetParameter` (lines 601-692).  `paramName = ""` models
`string.IsNullOrEmpty(paramName)` (null and empty collapse); an absent
`parameterValue` token is the `none` case.  The two guard failures are the
`ArgumentException`s of lines 605 and 609; otherwise the transaction of
line 613 runs the loop over every element id and commits on line 683.  The
handler does not mutate the inputs we track, so only the envelope is
returned; the per-element host writes are exposed by `setParameterOne`. -/
def handleSetParameter (doc : List (Nat × PElem)) (paramName : String)
    (value : Option JValue) (elementIds : List Nat) : Except String SPEnvelope :=
  if paramName = "" then
    .error "SetParameter action requires parameterName parameter"
  else
    match value with
    | Option.none => .error "SetParameter action requires parameterValue parameter"
    | some v =>
      let results := elementIds.map (fun id => (setParameterOne doc paramName v id).1)
      let n := elementIds.length
      .ok { success := true
            message := s!"SetParameter {paramName} on {n} element(s)"
            results := results }

/-! ## HandleRename (OperateElementExtensions.cs, lines 700-757) -/

/-- One host element for the Rename handler: its current `Name` and the
oracle `renameOk` for whether assigning `element.Name` succeeds (the
assignment throws for elements without a settable Name property). -/
structure RElem where
  name : String
  renameOk : Bool
  deriving Repr, DecidableEq

/-- `doc.GetElement(id)` for the Rename document model. -/
def lookupRElem (doc : List (Nat × RElem)) (id : Nat) : Option RElem :=
  (doc.find? (fun p => p.1 == id)).map Prod.snd

/-- In-place update of the element stored under `id` (the effect of the
`element.Name = nameToSet` assignment on line 727). -/
def updateRElem (doc : List (Nat × RElem)) (id : Nat) (e : RElem) :
    List (Nat × RElem) :=
  doc.map (fun p => if p.1 == id then (id, e) else p)

/-- One element of the `results` list of `HandleRename`
(the anonymous objects of lines 717, 728-734 and 738-744). -/
structure RenResult where
  elementId : Nat
  success : Bool
  oldName : Option String := Option.none
  newName : Option String := Option.none
  error : Option String := Option.none
  deriving Repr, DecidableEq

/-- The loop body of lines 712-746 for one `ElementId`, as a fold step over
(document, `results` so far).  `n` is `elementIds.Count` (a constant of the
whole call, read on line 726): when it is 1 the element is renamed to
`newName` verbatim, otherwise to `s!"{newName}_{results.Count + 1}"` —
`results.Count` counts every earlier result, failures included.  The
`catch` of line 736 maps a throwing Name assignment to a failure result
(its interpolated exception text is abbreviated to the fixed prefix of the
source message). -/
def renameStep (n : Nat) (newName : String) :
    List (Nat × RElem) × List RenResult → Nat →
      List (Nat × RElem) × List RenResult
  | (doc, results), id =>
    match lookupRElem doc id with
    | Option.none =>
      (doc, results ++ [{ elementId := id, success := false,
                          error := some "Element not found" }])
    | some e =>
      let k := results.length + 1
      let nameToSet := if n = 1 then newName else newName ++ "_" ++ toString k
      if e.renameOk then
        (updateRElem doc id { e with name := nameToSet },
         results ++ [{ elementId := id, success := true,
                       oldName := some e.name, newName := some nameToSet }])
      else
        (doc, results ++ [{ elementId := id, success := false,
                            oldName := some e.name,
                            error := some "Cannot rename" }])

/-- The reply object of lines 751-756. -/
structure RenEnvelope where
  success : Bool
  results : List RenResult
  deriving Repr, DecidableEq

/-- `HandleRename` (lines 700-757).  `newName = ""` models
`string.IsNullOrEmpty(newName)` (line 703); otherwise the transaction of
line 708 runs the loop over every element id and commits on line 748,
yielding the committed document and the reply object. -/
def handleRename (doc : List (Nat × RElem)) (newName : String)
    (elementIds : List Nat) :
    Except String (List (Nat × RElem) × RenEnvelope) :=
  if newName = "" then
    .error "Rename action requires newName parameter"
  else
    let out := elementIds.foldl (renameStep elementIds.length newName) (doc, [])
    .ok (out.1, { success := true, results := out.2 })

/-! ## Command Channel

Modelled from the spec: the Command Channel implementation
(`src/connection/ConnectionManager.ts`, `src/connection/SocketClient.ts`)
is not among the provided source files — only its callers
(`withRevitConnection` imports in `src/tools/`) are.  The definitions below
follow spec sections 3 and 4.1 verbatim: a Pending Request Table keyed by
correlation id, lazy connection on `send`, and a disconnect step that
rejects every pending entry with `Disconnected` and clears the table. -/

/-- `ChannelError{TimedOut | Disconnected | HostRejected(message)}`
(spec section 4.1). -/
inductive ChannelError where
  | timedOut
  | disconnected
  | hostRejected (message : String)
  deriving Repr, DecidableEq

/-- Modelled from the spec: one entry of the Pending Request Table —
a correlation id and its deadline (section 3, "Pending Request Table";
section 4.1, "each pending entry carries a deadline"). -/
structure PendingEntry where
  id : Nat
  deadline : Nat
  deriving Repr, DecidableEq

/-- Modelled from the spec: the Command Channel state — at most one
transport connection (`connected`), a fresh-id counter (section 4.1,
"monotonic counter"), and the Pending Request Table. -/
structure Channel where
  connected : Bool
  nextId : Nat
  pending : List PendingEntry
  deriving Repr, DecidableEq

/-- Modelled from the spec (section 4.1, "Disconnect"): on transport loss,
reject all currently pending entries with `Disconnected` and clear the
table; the channel transitions to a disconnected state.  Returns the new
state and the rejection delivered to each pending caller, in table
order. -/
def Channel.disconnect (ch : Channel) : Channel × List (Nat × ChannelError) :=
  ({ connected := false, nextId := ch.nextId, pending := [] },
   ch.pending.map (fun e => (e.id, ChannelError.disconnected)))

/-- Modelled from the spec (section 4.1, "On send" and the lazy-connection
rule): establish the connection if absent, allocate a fresh correlation id,
register a pending entry with the caller deadline.  Returns the new state
and the allocated id. -/
def Channel.send (ch : Channel) (deadline : Nat) : Channel × Nat :=
  let id := ch.nextId
  ({ connected := true, nextId := ch.nextId + 1,
     pending := ch.pending ++ [{ id := id, deadline := deadline }] }, id)

/-! ## Shared lemmas and concrete inputs -/

/-- A `filterMap` whose function is `some` on every member keeps the length. -/
theorem length_filterMap_of_isSome {α β : Type} (f : α → Option β) :
    ∀ l : List α, (∀ x ∈ l, (f x).isSome) → (List.filterMap f l).length = l.length := by
  intro l
  induction l with
  | nil => intro _; rfl
  | cons a l ih =>
    intro h
    rcases Option.isSome_iff_exists.mp (h a (by simp)) with ⟨b, hb⟩
    simp [List.filterMap_cons, hb, ih (fun x hx => h x (by simp [hx]))]

/-- `itemOutcome` is `some` exactly when the item records a result object:
when the view fails to resolve (the thrown `"Invalid view"` is caught and
recorded) or the `dimensionType` matches a `case` of the dispatch switch.
A descriptor with a valid view and an unrecognised type records nothing. -/
theorem itemOutcome_isSome_iff (d : DimSpec) :
    (itemOutcome d).isSome = true ↔
      (d.viewOk = false ∨
        recognizedDimTypes.contains (d.dimensionType.getD "Linear") = true) := by
  rcases d with ⟨dt, vok, att, tov, ovr⟩
  cases vok
  · simp [itemOutcome, execDimItem]
  · by_cases hrec : (dt.getD "Linear") ∈ recognizedDimTypes
    case neg => simp [itemOutcome, execDimItem, hrec]
    case pos =>
      cases att with
      | error m => simp [itemOutcome, execDimItem, hrec]
      | ok i =>
        cases tov with
        | none => simp [itemOutcome, execDimItem, hrec]
        | some t =>
          by_cases ht : t = ""
          · simp [itemOutcome, execDimItem, hrec, ht]
          · cases ovr <;> simp [itemOutcome, execDimItem, hrec, ht]

/-- Every branch of the SetParameter loop body tags the result with the
element id it processed. -/
theorem setParameterOne_elementId (doc : List (Nat × PElem)) (paramName : String)
    (value : JValue) (id : Nat) :
    (setParameterOne doc paramName value id).1.elementId = id := by
  unfold setParameterOne
  cases h : lookupElem doc id with
  | none => simp
  | some e =>
    cases hp : e.lookupParameter paramName with
    | none => simp [hp]
    | some p => by_cases hr : p.isReadOnly <;> simp [hp, hr]

/-- A Linear item whose creation succeeds (dimension element id 101). -/
def linSpecA : DimSpec :=
  { dimensionType := some "Linear", viewOk := true, attempt := .ok 101,
    textOverride := Option.none, overrideResult := .ok () }

/-- An item with an absent `dimensionType` (defaults to Linear), succeeding
with a text override (dimension element id 102). -/
def linSpecB : DimSpec :=
  { dimensionType := Option.none, viewOk := true, attempt := .ok 102,
    textOverride := some "3.5 m", overrideResult := .ok () }

/-- An Angular item whose creation helper throws `"Element not found"`. -/
def failSpec : DimSpec :=
  { dimensionType := some "Angular", viewOk := true,
    attempt := .error "Element not found",
    textOverride := Option.none, overrideResult := .ok () }

/-- An item whose `dimensionType` string matches no case of the switch. -/
def bogusSpec : DimSpec :=
  { dimensionType := some "Bogus", viewOk := true, attempt := .ok 1,
    textOverride := Option.none, overrideResult := .ok () }

/-- Another unrecognised `dimensionType` ("Chain" is not a case: chain
dimensions ride on the "Linear" case via `chainPoints`). -/
def chainSpec : DimSpec :=
  { dimensionType := some "Chain", viewOk := true, attempt := .ok 7,
    textOverride := Option.none, overrideResult := .ok () }

/-- A Linear item whose creation succeeds (id 42) but whose text-override
application throws `"boom"`. -/
def overrideFailSpec : DimSpec :=
  { dimensionType := some "Linear", viewOk := true, attempt := .ok 42,
    textOverride := some "EQ", overrideResult := .error "boom" }

/-! ## Claim theorems -/

/-- C1 (counterexample): the claim says a descriptor with an unrecognized
`dimensionType` appears as a failed Outcome rather than being dropped.  On
the code it is dropped: a one-item batch whose only descriptor has
`dimensionType = "Bogus"` commits with an empty `results` array (0
outcomes for 1 descriptor), because the dispatch switch has no default and
the `createdDim != null` guard skips recording. -/
theorem create_dimensions_drops_unrecognized :
    ∃ env, handleCreateDimensions [] [bogusSpec] = .ok ([], env) ∧
      env.results.length = 0 ∧ env.success = true :=
  ⟨_, rfl, rfl, rfl⟩

/-- C1 (amended): the `results` array of `HandleCreateDimensions` is the
input-order `filterMap` of the per-item outcomes, and an item records an
outcome exactly when its view fails to resolve or its `dimensionType`
(default `"Linear"`) matches a case of the dispatch switch — a descriptor
with a valid view and an unrecognized type is silently dropped, not
reported as a failed Outcome.  `HandleSetParameter` does return exactly one
result per submitted element id, in input order. -/
theorem batch_results_one_per_executed_item :
    (∀ (doc : List Nat) (dims : List DimSpec), dims ≠ [] →
      ∃ doc2 env, handleCreateDimensions doc dims = .ok (doc2, env) ∧
        env.results = dims.filterMap itemOutcome ∧
        ∀ d ∈ dims, ((itemOutcome d).isSome = true ↔
          (d.viewOk = false ∨
            recognizedDimTypes.contains (d.dimensionType.getD "Linear") = true))) ∧
    (∀ (doc : List (Nat × PElem)) (pn : String) (v : JValue) (ids : List Nat),
      pn ≠ "" →
      ∃ env, handleSetParameter doc pn (some v) ids = .ok env ∧
        env.results.length = ids.length ∧
        ∀ i, ∀ hi : i < ids.length, ∃ hr : i < env.results.length,
          (env.results.get ⟨i, hr⟩).elementId = ids.get ⟨i, hi⟩) := by
  constructor
  · intro doc dims hne
    obtain ⟨env, h1, _, h3⟩ := handleCreateDimensions_eq doc dims hne
    exact ⟨_, env, h1, h3, fun d _ => itemOutcome_isSome_iff d⟩
  · intro doc pn v ids hpn
    unfold handleSetParameter
    rw [if_neg hpn]
    refine ⟨_, rfl, by simp, ?_⟩
    intro i hi
    have hr : i < (ids.map (fun id => (setParameterOne doc pn v id).1)).length := by
      simpa using hi
    refine ⟨hr, ?_⟩
    simp only [List.get_eq_getElem, List.getElem_map]
    exact setParameterOne_elementId doc pn v (ids.get ⟨i, hi⟩)

/-- C1 (witness): both parts applied at concrete inputs. -/
theorem batch_results_one_per_executed_item_witness :
    (∃ doc2 env, handleCreateDimensions [] [linSpecA, failSpec] = .ok (doc2, env) ∧
      env.results = [linSpecA, failSpec].filterMap itemOutcome ∧
      ∀ d ∈ [linSpecA, failSpec], ((itemOutcome d).isSome = true ↔
        (d.viewOk = false ∨
          recognizedDimTypes.contains (d.dimensionType.getD "Linear") = true))) ∧
    (∃ env, handleSetParameter [] "Mark" (some (JValue.str "A")) [5, 9] = .ok env ∧
      env.results.length = [5, 9].length ∧
      ∀ i, ∀ hi : i < [5, 9].length, ∃ hr : i < env.results.length,
        (env.results.get ⟨i, hr⟩).elementId = [5, 9].get ⟨i, hi⟩) :=
  ⟨batch_results_one_per_executed_item.1 [] [linSpecA, failSpec] (by simp),
   batch_results_one_per_executed_item.2 [] "Mark" (JValue.str "A") [5, 9] (by simp)⟩

/-- C3 (counterexample): the claim says an empty batch returns a committed
result with an empty outcomes array; `HandleCreateDimensions` instead
throws `ArgumentException("No dimensions provided")` on its line 40. -/
theorem empty_batch_throws :
    handleCreateDimensions [] [] = .error "No dimensions provided" := rfl

/-- C3 (amended): an empty `dimensions` array makes `HandleCreateDimensions`
throw `"No dimensions provided"` — the call fails instead of returning a
committed no-op.  (`HandleSetParameter`, by contrast, does treat an empty
element-id list as a successfully committed no-op with empty results.) -/
theorem empty_batch_behaviour :
    (∀ doc : List Nat, handleCreateDimensions doc [] = .error "No dimensions provided") ∧
    (∀ (doc : List (Nat × PElem)) (pn : String) (v : JValue), pn ≠ "" →
      ∃ env, handleSetParameter doc pn (some v) [] = .ok env ∧
        env.success = true ∧ env.results = []) := by
  refine ⟨fun doc => rfl, fun doc pn v hpn => ?_⟩
  unfold handleSetParameter
  rw [if_neg hpn]
  exact ⟨_, rfl, rfl, rfl⟩

/-- C3 (witness): the amended behaviour at concrete inputs. -/
theorem empty_batch_behaviour_witness :
    handleCreateDimensions [7] [] = .error "No dimensions provided" ∧
    (∃ env, handleSetParameter [] "Mark" (some (JValue.num 2)) [] = .ok env ∧
      env.success = true ∧ env.results = []) :=
  ⟨empty_batch_behaviour.1 [7],
   empty_batch_behaviour.2 [] "Mark" (JValue.num 2) (by simp)⟩

/-- C4: whenever the transaction runs (the batch passes the top-level
argument guards), the reply envelope carries `success := true`, whatever
the individual outcomes are: item-level failures never turn the reply into
a failure envelope.  Stated for both batch handlers. -/
theorem envelope_success_whenever_committed :
    (∀ (doc : List Nat) (dims : List DimSpec), dims ≠ [] →
      ∃ doc2 env, handleCreateDimensions doc dims = .ok (doc2, env) ∧
        env.success = true) ∧
    (∀ (doc : List (Nat × PElem)) (pn : String) (v : JValue) (ids : List Nat),
      pn ≠ "" →
      ∃ env, handleSetParameter doc pn (some v) ids = .ok env ∧
        env.success = true) := by
  constructor
  · intro doc dims hne
    obtain ⟨env, h1, h2, _⟩ := handleCreateDimensions_eq doc dims hne
    exact ⟨_, env, h1, h2⟩
  · intro doc pn v ids hpn
    unfold handleSetParameter
    rw [if_neg hpn]
    exact ⟨_, rfl, rfl⟩

/-- C4 (witness): applied to all-failing batches — the envelope still
reports success.  The create_dimensions batch consists of two throwing
items; the SetParameter batch addresses an element missing from the
document. -/
theorem envelope_success_whenever_committed_witness :
    (∃ doc2 env, handleCreateDimensions []
        [failSpec, overrideFailSpec] = .ok (doc2, env) ∧ env.success = true) ∧
    (∃ env, handleSetParameter [] "Mark" (some (JValue.bool true)) [3] = .ok env ∧
      env.success = true) :=
  ⟨envelope_success_whenever_committed.1 [] [failSpec, overrideFailSpec] (by simp),
   envelope_success_whenever_committed.2 [] "Mark" (JValue.bool true) [3] (by simp)⟩

/-- C5 (counterexample): the claim says a descriptor with an unknown kind
produces a failed Outcome.  In a two-item batch `[chainSpec, linSpecA]`
where the first item's `dimensionType = "Chain"` matches no case, the batch
is not aborted (the second item still succeeds) but the unknown-kind item
contributes no Outcome at all: `results` has a single success object. -/
theorem unknown_kind_yields_no_outcome :
    ∃ env, handleCreateDimensions [] [chainSpec, linSpecA] = .ok ([101], env) ∧
      env.results = [DimOutcome.ok 101 "Linear" Option.none] :=
  ⟨_, rfl, rfl⟩

/-- C5 (amended): a descriptor whose `dimensionType` (default `"Linear"`)
matches no case of the dispatch switch never raises an error that aborts
the batch — the handler still commits and returns the other items'
outcomes — but no failed Outcome is recorded for it: the descriptor is
silently skipped. -/
theorem unknown_kind_skipped_without_abort
    (doc : List Nat) (dims : List DimSpec) (d : DimSpec)
    (hmem : d ∈ dims) (hview : d.viewOk = true)
    (hkind : recognizedDimTypes.contains (d.dimensionType.getD "Linear") = false) :
    ∃ doc2 env, handleCreateDimensions doc dims = .ok (doc2, env) ∧
      itemOutcome d = Option.none ∧
      env.results = dims.filterMap itemOutcome := by
  have hne : dims ≠ [] := by rintro rfl; exact absurd hmem (by simp)
  obtain ⟨env, h1, _, h3⟩ := handleCreateDimensions_eq doc dims hne
  refine ⟨_, env, h1, ?_, h3⟩
  have := itemOutcome_isSome_iff d
  rcases h : itemOutcome d with _ | o
  · rfl
  · rw [h] at this
    rcases this.mp rfl with hv | hk
    · rw [hview] at hv; cases hv
    · rw [hkind] at hk; cases hk

/-- C5 (witness): the amended statement at the concrete two-item batch. -/
theorem unknown_kind_skipped_without_abort_witness :
    ∃ doc2 env, handleCreateDimensions [] [chainSpec, linSpecA] = .ok (doc2, env) ∧
      itemOutcome chainSpec = Option.none ∧
      env.results = [chainSpec, linSpecA].filterMap itemOutcome :=
  unknown_kind_skipped_without_abort [] [chainSpec, linSpecA] chainSpec
    (by simp) (by rfl) (by rfl)

/-- C6 (counterexample): the claim says a failed item leaves no partial
host-side state; in particular a textOverride failure after creation leaves
no created element.  On the code, a one-item batch whose creation succeeds
(element id 42) and whose override application throws `"boom"` commits a
document that still contains element 42, while the item's Outcome is the
failure object: the created dimension is never deleted. -/
theorem override_failure_keeps_created_element :
    ∃ env, handleCreateDimensions [] [overrideFailSpec] = .ok ([42], env) ∧
      env.results = [DimOutcome.fail "boom" "Linear"] :=
  ⟨_, rfl, rfl⟩

/-- C6 (amended): when the text-override step of an item throws after the
dimension was created, the item is recorded as a failed Outcome, the batch
still commits, and the element created by that item remains in the
committed document — there is no per-item rollback of effects already
performed. -/
theorem override_failure_recorded_element_retained
    (doc : List Nat) (dims : List DimSpec) (d : DimSpec)
    (dimId : Nat) (t msg : String)
    (hmem : d ∈ dims) (hview : d.viewOk = true)
    (hkind : recognizedDimTypes.contains (d.dimensionType.getD "Linear") = true)
    (hatt : d.attempt = .ok dimId)
    (htov : d.textOverride = some t) (ht : t ≠ "")
    (hovr : d.overrideResult = .error msg) :
    ∃ doc2 env, handleCreateDimensions doc dims = .ok (doc2, env) ∧
      itemOutcome d = some (DimOutcome.fail msg (d.dimensionType.getD "Linear")) ∧
      dimId ∈ doc2 := by
  have hne : dims ≠ [] := by rintro rfl; exact absurd hmem (by simp)
  obtain ⟨env, h1, _, _⟩ := handleCreateDimensions_eq doc dims hne
  have hexec : execDimItem d =
      ([dimId], some (DimOutcome.fail msg (d.dimensionType.getD "Linear"))) := by
    unfold execDimItem
    rw [hview, hatt, htov, hovr]
    simp only [Bool.true_eq_false, if_false, if_neg ht]
    rw [if_pos]
    simpa using hkind
  refine ⟨_, env, h1, ?_, ?_⟩
  · rw [itemOutcome, hexec]
  · refine List.mem_append_right _ (List.mem_flatMap.mpr ⟨d, hmem, ?_⟩)
    rw [itemCreated, hexec]
    simp

/-- C6 (witness): the amended statement at the concrete failing-override
item. -/
theorem override_failure_recorded_element_retained_witness :
    ∃ doc2 env, handleCreateDimensions [] [overrideFailSpec] = .ok (doc2, env) ∧
      itemOutcome overrideFailSpec =
        some (DimOutcome.fail "boom" (overrideFailSpec.dimensionType.getD "Linear")) ∧
      42 ∈ doc2 :=
  override_failure_recorded_element_retained [] [overrideFailSpec] overrideFailSpec
    42 "EQ" "boom" (by simp) (by rfl) (by rfl) (by rfl) (by rfl) (by simp) (by rfl)

/-- C2: a batch with one failing item among M passing items (pre/post
around `d`) still commits: the handler returns the ok envelope, the failed
item's Outcome sits at its input position between the M successful
Outcomes, no later descriptor is skipped (the post outcomes are all
present), and every element created by a successful item is in the
committed document — no rollback of the M. -/
theorem batch_single_failure_isolated
    (doc : List Nat) (pre post : List DimSpec) (d : DimSpec) (o : DimOutcome)
    (hpre : ∀ x ∈ pre, ∃ u, itemOutcome x = some u ∧ u.success = true)
    (hpost : ∀ x ∈ post, ∃ u, itemOutcome x = some u ∧ u.success = true)
    (hd : itemOutcome d = some o) (hdf : o.success = false) :
    ∃ doc2 env, handleCreateDimensions doc (pre ++ d :: post) = .ok (doc2, env) ∧
      env.success = true ∧
      env.results = pre.filterMap itemOutcome ++ o :: post.filterMap itemOutcome ∧
      (pre.filterMap itemOutcome).length = pre.length ∧
      (post.filterMap itemOutcome).length = post.length ∧
      (∀ r ∈ pre.filterMap itemOutcome, r.success = true) ∧
      (∀ r ∈ post.filterMap itemOutcome, r.success = true) ∧
      o.success = false ∧
      (∀ x, (x ∈ pre ∨ x ∈ post) → ∀ c ∈ itemCreated x, c ∈ doc2) := by
  have hne : pre ++ d :: post ≠ [] := by simp
  obtain ⟨env, h1, h2, h3⟩ := handleCreateDimensions_eq doc _ hne
  refine ⟨_, env, h1, h2, ?_, ?_, ?_, ?_, ?_, hdf, ?_⟩
  · rw [h3, List.filterMap_append, List.filterMap_cons, hd]
  · exact length_filterMap_of_isSome _ pre
      (fun x hx => by obtain ⟨u, hu, _⟩ := hpre x hx; simp [hu])
  · exact length_filterMap_of_isSome _ post
      (fun x hx => by obtain ⟨u, hu, _⟩ := hpost x hx; simp [hu])
  · intro r hr
    obtain ⟨x, hx, hfx⟩ := List.mem_filterMap.mp hr
    obtain ⟨u, hu, hs⟩ := hpre x hx
    rw [hu] at hfx
    cases hfx
    exact hs
  · intro r hr
    obtain ⟨x, hx, hfx⟩ := List.mem_filterMap.mp hr
    obtain ⟨u, hu, hs⟩ := hpost x hx
    rw [hu] at hfx
    cases hfx
    exact hs
  · intro x hx c hc
    refine List.mem_append_right _ (List.mem_flatMap.mpr ⟨x, ?_, hc⟩)
    rcases hx with hx | hx
    · exact List.mem_append_left _ hx
    · exact List.mem_append_right _ (List.mem_cons_of_mem _ hx)

/-- C2 (witness): the spec's concrete scenario — item 1 a succeeding
Linear dimension, item 2 throwing `"Element not found"`, item 3 a
succeeding defaulted-Linear dimension with a text override. -/
theorem batch_single_failure_isolated_witness :
    ∃ doc2 env, handleCreateDimensions []
        ([linSpecA] ++ failSpec :: [linSpecB]) = .ok (doc2, env) ∧
      env.success = true ∧
      env.results = [linSpecA].filterMap itemOutcome ++
        DimOutcome.fail "Element not found" "Angular" ::
          [linSpecB].filterMap itemOutcome ∧
      ([linSpecA].filterMap itemOutcome).length = [linSpecA].length ∧
      ([linSpecB].filterMap itemOutcome).length = [linSpecB].length ∧
      (∀ r ∈ [linSpecA].filterMap itemOutcome, r.success = true) ∧
      (∀ r ∈ [linSpecB].filterMap itemOutcome, r.success = true) ∧
      (DimOutcome.fail "Element not found" "Angular").success = false ∧
      (∀ x, (x ∈ [linSpecA] ∨ x ∈ [linSpecB]) → ∀ c ∈ itemCreated x, c ∈ doc2) :=
  batch_single_failure_isolated [] [linSpecA] [linSpecB] failSpec
    (DimOutcome.fail "Element not found" "Angular")
    (by intro x hx; rw [List.mem_singleton] at hx; subst hx; exact ⟨_, rfl, rfl⟩)
    (by intro x hx; rw [List.mem_singleton] at hx; subst hx; exact ⟨_, rfl, rfl⟩)
    rfl rfl

/-- C7: the caller-to-host conversion of `Double`-storage parameter values
applies the fixed factor 1 host unit = 304.8 mm for lengths (so a length
value of 304.8 becomes exactly 1 and in general `v` becomes `v / 304.8`),
the factor squared for areas and cubed for volumes, and degrees-to-radians
(`v * π / 180`, with π the `Math.PI` double) for angles, for every numeric
input value. -/
theorem unit_conversion_factors (v : ℚ) :
    convertDoubleValue true SpecKind.length v = v / 304.8 ∧
    convertDoubleValue true SpecKind.length 304.8 = 1 ∧
    convertDoubleValue true SpecKind.area v = v / 304.8 ^ 2 ∧
    convertDoubleValue true SpecKind.volume v = v / 304.8 ^ 3 ∧
    convertDoubleValue true SpecKind.angle v = v * mathPi / 180 := by
  refine ⟨?_, ?_, ?_, ?_, rfl⟩
  · show v * MmToFeet = v / 304.8
    rw [MmToFeet]; ring
  · show (304.8 : ℚ) * MmToFeet = 1
    rw [MmToFeet]; norm_num
  · show v * (MmToFeet * MmToFeet) = v / 304.8 ^ 2
    rw [MmToFeet]; ring
  · show v * (MmToFeet * MmToFeet * MmToFeet) = v / 304.8 ^ 3
    rw [MmToFeet]; ring

/-- C8: a `Double`-storage parameter whose semantic kind is none of the
known kinds (length, angle, area, volume) — or whose definition is not an
`InternalDefinition` — gets the raw caller value passed through
unconverted, and that is exactly the value handed to `param.Set` by the
SetParameter loop: explicit passthrough, never zero and never a scaled
value. -/
theorem unknown_kind_passthrough :
    (∀ v : ℚ, convertDoubleValue true SpecKind.other v = v) ∧
    (∀ (kind : SpecKind) (v : ℚ), convertDoubleValue false kind v = v) ∧
    (∀ (doc : List (Nat × PElem)) (pn : String) (v : JValue) (id : Nat)
       (e : PElem) (p : PParam),
       lookupElem doc id = some e → e.lookupParameter pn = some p →
       p.isReadOnly = false → p.storage = StorageType.double →
       p.isInternalDefinition = true → p.dataType = SpecKind.other →
       (setParameterOne doc pn v id).2 = HostValue.double v.asDouble) := by
  refine ⟨fun v => rfl, fun kind v => rfl, ?_⟩
  intro doc pn v id e p he hp hro hst hint hdt
  unfold setParameterOne
  simp [he, hp, hro, hst, hint, hdt, convertDoubleValue]

/-- A `Double`-storage parameter of an unclassified semantic kind, writable. -/
def flowParam : PParam :=
  { isReadOnly := false, storage := StorageType.double,
    isInternalDefinition := true, dataType := SpecKind.other, setOk := true }

/-- A one-element document holding `flowParam` under the name "Flow". -/
def flowDoc : List (Nat × PElem) := [(1, { params := [("Flow", flowParam)] })]

/-- C8 (witness): the passthrough at the concrete value 12.5 on a concrete
document. -/
theorem unknown_kind_passthrough_witness :
    convertDoubleValue true SpecKind.other (25 / 2) = 25 / 2 ∧
    convertDoubleValue false SpecKind.length (25 / 2) = 25 / 2 ∧
    (setParameterOne flowDoc "Flow" (JValue.num (25 / 2)) 1).2 =
      HostValue.double (JValue.num (25 / 2)).asDouble :=
  ⟨unknown_kind_passthrough.1 (25 / 2),
   unknown_kind_passthrough.2.1 SpecKind.length (25 / 2),
   unknown_kind_passthrough.2.2 flowDoc "Flow" (JValue.num (25 / 2)) 1
     { params := [("Flow", flowParam)] } flowParam rfl rfl rfl rfl rfl rfl⟩

/-- C9 (modelled from the spec, section 4.1): a disconnect while K requests
are pending rejects all K pending callers with `Disconnected`, leaves the
Pending Request Table empty, puts the channel in the disconnected state,
and the next `send` reconnects transparently (the channel is connected
again after it). -/
theorem disconnect_rejects_all_pending (ch : Channel) :
    (ch.disconnect.1).pending = [] ∧
    (ch.disconnect.1).connected = false ∧
    (ch.disconnect.2).length = ch.pending.length ∧
    (∀ r ∈ ch.disconnect.2, r.2 = ChannelError.disconnected) ∧
    (∀ deadline : Nat, ((ch.disconnect.1).send deadline).1.connected = true) := by
  refine ⟨rfl, rfl, by simp [Channel.disconnect], ?_, fun _ => rfl⟩
  intro r hr
  simp only [Channel.disconnect, List.mem_map] at hr
  obtain ⟨e, _, rfl⟩ := hr
  rfl

/-! ### Rename fold lemmas -/

/-- Each iteration of the Rename loop appends exactly one result, and a
successful result's `newName` is `newName` verbatim when the batch has one
id, else `newName_k` with `k` one more than the number of results already
recorded. -/
theorem renameStep_shape (n : Nat) (nn : String) (doc : List (Nat × RElem))
    (acc : List RenResult) (id : Nat) :
    ∃ doc2 r, renameStep n nn (doc, acc) id = (doc2, acc ++ [r]) ∧
      (r.success = true →
        r.newName = some (if n = 1 then nn else nn ++ "_" ++ toString (acc.length + 1))) := by
  simp only [renameStep]
  cases h : lookupRElem doc id with
  | none =>
    simp only [h]
    exact ⟨doc, _, rfl, by intro hs; cases hs⟩
  | some e =>
    simp only [h]
    by_cases hr : e.renameOk = true
    · rw [if_pos hr]
      exact ⟨_, _, rfl, fun _ => rfl⟩
    · rw [if_neg hr]
      exact ⟨doc, _, rfl, by intro hs; cases hs⟩

/-- The Rename loop produces one result per element id, in input order;
the i-th result, when successful, carries the `newName_k` suffix with
`k = (results recorded before it) + 1`. -/
theorem renameFold_tail (n : Nat) (nn : String) :
    ∀ (ids : List Nat) (doc : List (Nat × RElem)) (acc : List RenResult),
      ∃ tail, (ids.foldl (renameStep n nn) (doc, acc)).2 = acc ++ tail ∧
        tail.length = ids.length ∧
        ∀ i, i < ids.length → ∃ r, tail[i]? = some r ∧
          (r.success = true →
            r.newName = some (if n = 1 then nn
              else nn ++ "_" ++ toString (acc.length + i + 1))) := by
  intro ids
  induction ids with
  | nil =>
    intro doc acc
    exact ⟨[], by simp, rfl, fun i hi => absurd hi (by simp)⟩
  | cons id ids ih =>
    intro doc acc
    obtain ⟨doc2, r, hstep, hr⟩ := renameStep_shape n nn doc acc id
    obtain ⟨tail, heq, hlen, hidx⟩ := ih doc2 (acc ++ [r])
    refine ⟨r :: tail, ?_, by simp [hlen], ?_⟩
    · rw [List.foldl_cons, hstep, heq]
      simp
    · intro i hi
      cases i with
      | zero => exact ⟨r, by simp, fun hs => by simpa using hr hs⟩
      | succ j =>
        obtain ⟨u, hu, hsfx⟩ := hidx j (by simpa using hi)
        refine ⟨u, by simpa using hu, fun hs => ?_⟩
        rw [hsfx hs]
        by_cases hn : n = 1
        · simp [hn]
        · have harith : (acc ++ [r]).length + j + 1 = acc.length + (j + 1) + 1 := by
            simp only [List.length_append, List.length_cons, List.length_nil]
            omega
          rw [if_neg hn, if_neg hn, harith]

/-- Updating the entry stored under `id` makes a later lookup of `id`
return the new element, provided `id` was present. -/
theorem lookupRElem_update (doc : List (Nat × RElem)) (id : Nat) (e x : RElem)
    (h : lookupRElem doc id = some e) :
    lookupRElem (updateRElem doc id x) id = some x := by
  induction doc with
  | nil => simp [lookupRElem] at h
  | cons p rest ih =>
    rcases p with ⟨k, v⟩
    by_cases hk : ((k, v).1 == id) = true
    · simp only [updateRElem, List.map_cons, lookupRElem]
      rw [if_pos hk]
      rw [List.find?_cons_of_pos _ (by simp)]
      rfl
    · have h' : lookupRElem rest id = some e := by
        simp only [lookupRElem] at h ⊢
        rwa [List.find?_cons_of_neg (p := fun q : Nat × RElem => q.1 == id) rest hk] at h
      have hrec := ih h'
      simp only [updateRElem, List.map_cons] at hrec ⊢
      rw [if_neg hk]
      simp only [lookupRElem] at hrec ⊢
      rw [List.find?_cons_of_neg (p := fun q : Nat × RElem => q.1 == id) _ hk]
      exact hrec

/-- C10: `HandleRename` with a single element id renames the element to
`newName` verbatim; with more than one id, the i-th result — when it is a
successful rename — carries the name `newName_k` where `k` is one more than
the number of results (successes and failures alike) recorded before that
element, i.e. `k = i + 1`. -/
theorem rename_suffix_numbering :
    (∀ (doc : List (Nat × RElem)) (nn : String) (a : Nat) (e : RElem),
      nn ≠ "" → lookupRElem doc a = some e → e.renameOk = true →
      ∃ doc2 env, handleRename doc nn [a] = .ok (doc2, env) ∧
        lookupRElem doc2 a = some { name := nn, renameOk := e.renameOk } ∧
        env.results = [{ elementId := a, success := true,
                         oldName := some e.name, newName := some nn }]) ∧
    (∀ (doc : List (Nat × RElem)) (nn : String) (ids : List Nat),
      nn ≠ "" → 2 ≤ ids.length →
      ∃ doc2 env, handleRename doc nn ids = .ok (doc2, env) ∧
        env.results.length = ids.length ∧
        ∀ i, i < ids.length → ∃ r, env.results[i]? = some r ∧
          (r.success = true →
            r.newName = some (nn ++ "_" ++ toString (i + 1)))) := by
  constructor
  · intro doc nn a e hnn hfound hok
    have hstep : renameStep [a].length nn (doc, []) a =
        (updateRElem doc a { name := nn, renameOk := e.renameOk },
         [{ elementId := a, success := true,
            oldName := some e.name, newName := some nn }]) := by
      simp only [renameStep, hfound]
      rw [if_pos hok]
      simp
    have hcall : handleRename doc nn [a] =
        .ok (updateRElem doc a { name := nn, renameOk := e.renameOk },
             { success := true,
               results := [{ elementId := a, success := true,
                             oldName := some e.name, newName := some nn }] }) := by
      unfold handleRename
      rw [if_neg hnn]
      show (Except.ok ((renameStep [a].length nn (doc, []) a).1,
          { success := true, results := (renameStep [a].length nn (doc, []) a).2 }) :
        Except String (List (Nat × RElem) × RenEnvelope)) = _
      rw [hstep]
    exact ⟨_, _, hcall, lookupRElem_update doc a e _ hfound, rfl⟩
  · intro doc nn ids hnn hlen2
    have hn1 : ids.length ≠ 1 := by omega
    obtain ⟨tail, heq, hlen, hidx⟩ := renameFold_tail ids.length nn ids doc []
    unfold handleRename
    rw [if_neg hnn]
    refine ⟨_, _, rfl, ?_, ?_⟩
    · show (ids.foldl (renameStep ids.length nn) (doc, [])).2.length = ids.length
      rw [heq]
      simpa using hlen
    · intro i hi
      obtain ⟨r, hr, hsfx⟩ := hidx i hi
      refine ⟨r, ?_, fun hs => ?_⟩
      · show (ids.foldl (renameStep ids.length nn) (doc, [])).2[i]? = some r
        rw [heq]
        simpa using hr
      · rw [hsfx hs, if_neg hn1]
        simp

/-- A document for the Rename witnesses: element 1 renamable, element 2
with a read-only Name, element 3 absent. -/
def renameDoc : List (Nat × RElem) :=
  [(1, { name := "Level 1", renameOk := true }),
   (2, { name := "Level 2", renameOk := false })]

/-- C10 (witness): both parts at concrete inputs — a single-id rename sets
the verbatim name; a three-id batch (renamable, missing, read-only) numbers
the successful first result `GridA_1`. -/
theorem rename_suffix_numbering_witness :
    (∃ doc2 env, handleRename renameDoc "GridA" [1] = .ok (doc2, env) ∧
      lookupRElem doc2 1 = some { name := "GridA", renameOk := true } ∧
      env.results = [{ elementId := 1, success := true,
                       oldName := some "Level 1", newName := some "GridA" }]) ∧
    (∃ doc2 env, handleRename renameDoc "GridA" [1, 3, 2] = .ok (doc2, env) ∧
      env.results.length = [1, 3, 2].length ∧
      ∀ i, i < [1, 3, 2].length → ∃ r, env.results[i]? = some r ∧
        (r.success = true →
          r.newName = some ("GridA" ++ "_" ++ toString (i + 1)))) :=
  ⟨rename_suffix_numbering.1 renameDoc "GridA" 1
      { name := "Level 1", renameOk := true } (by decide) rfl rfl,
   rename_suffix_numbering.2 renameDoc "GridA" [1, 3, 2] (by decide) (by decide)⟩

end RevitMcp
